import Mathlib

/-!
Verification development for the lead-scoring pipeline.

The repository contains two service variants implementing the same
inference contract:
* `api-lead-scoring/main.py` (FastAPI + pydantic), embedded in namespace `Api`;
* `app-lead-scoring/app.py` (Flask), embedded in namespace `Flask`.

Scalars are embedded with `Int`/`ℚ` in place of Python ints/floats;
fallible code is embedded with `Except`/`Option`. The fitted preprocessor
and classifier are opaque artifacts in the source and are embedded as
black-box function records (`Preprocessor`, `Classifier`). Wall-clock
timestamps are omitted from response records (they are nondeterministic
and carry no contract beyond being present).
-/

/-- A scalar attribute value as it appears in a request body, a form post or a
pandas dataframe cell. `null` embeds Python `None` / pandas `NaN`. -/
inductive Value where
  | str (s : String)
  | int (n : Int)
  | num (q : ℚ)
  | null
  deriving DecidableEq, Repr

/-- An unordered attribute map (Python `dict` of scalars), embedded as an
association list; `RawMap.get` is `dict.get`. -/
abbrev RawMap := List (String × Value)

/-- Python `dict.get k`: the value bound to the first occurrence of key `k`. -/
def RawMap.get (m : RawMap) (k : String) : Option Value :=
  match m with
  | [] => none
  | (k', v) :: t => if k' = k then some v else RawMap.get t k

/-- The numeric value of a decimal digit character, `none` otherwise. -/
def digitVal? (c : Char) : Option Nat :=
  if '0' ≤ c ∧ c ≤ '9' then some (c.toNat - '0'.toNat) else none

/-- Accumulate a digit string into a natural number; any non-digit fails. -/
def digitsVal? : List Char → Nat → Option Nat
  | [], acc => some acc
  | c :: t, acc =>
    match digitVal? c with
    | none => none
    | some d => digitsVal? t (10 * acc + d)

/-- Parse a non-empty digit string. -/
def parseNat? (cs : List Char) : Option Nat :=
  if cs.isEmpty then none else digitsVal? cs 0

/-- Python `int(s)`: an optionally negated digit string; anything else
(including a decimal point) fails. -/
def parseInt? (s : String) : Option Int :=
  match s.toList with
  | '-' :: t => (parseNat? t).map (fun n => -(n : Int))
  | cs => (parseNat? cs).map (fun n => (n : Int))

/-- Parse an unsigned decimal numeral `digits` or `digits.digits`. -/
def parsePos? (cs : List Char) : Option ℚ :=
  match cs.span (fun c => c ≠ '.') with
  | (w, []) => (parseNat? w).map (fun n => (n : ℚ))
  | (w, _ :: f) =>
    match parseNat? w, parseNat? f with
    | some n, some fr => some ((n : ℚ) + (fr : ℚ) / (10 : ℚ) ^ f.length)
    | _, _ => none

/-- Python `float(s)` / `pandas.to_numeric` on a string cell, for the string
forms exercised by this service: an optionally negated decimal numeral;
non-numeric strings fail (`NaN` under `errors='coerce'`). -/
def parseRat? (s : String) : Option ℚ :=
  match s.toList with
  | '-' :: t => (parsePos? t).map (fun q => -q)
  | cs => parsePos? cs

/-- Python `round(x, 2)`: round to two decimal places (ties embedded as
round-half-up on `ℚ`; no tie value is exercised by the source contract). -/
def round2 (q : ℚ) : ℚ := ((round (q * 100) : ℤ) : ℚ) / 100

/-- The `EXPECTED_COLUMNS` fixed ordered feature schema. The identical list
literal appears in both `main.py` and `app.py`. -/
def EXPECTED_COLUMNS : List String :=
  ["Lead Origin", "Lead Source", "Do Not Email", "Do Not Call", "TotalVisits",
   "Total Time Spent on Website", "Page Views Per Visit", "Last Activity",
   "Country", "Specialization", "What is your current occupation", "Search",
   "Newspaper Article", "X Education Forums", "Newspaper", "Digital Advertisement",
   "Through Recommendations", "Tags", "Lead Quality", "City",
   "A free copy of Mastering The Interview", "Last Notable Activity"]

/-- The fitted preprocessing transform, a black box: maps a feature record
(dataframe row) to a numeric feature vector, or fails. -/
structure Preprocessor where
  transform : List (String × Value) → Except String (List ℚ)

/-- The fitted binary classifier, a black box: `predict` yields the class of
the single row, `predict_proba` yields the class-probability pair
`(p(class 0), p(class 1))` of the single row, either may fail. -/
structure Classifier where
  predict : List ℚ → Except String Int
  predict_proba : List ℚ → Except String (ℚ × ℚ)

namespace Api

/-- A pydantic validation failure for one field (the embedding reports the
first failing field; pydantic aggregates, which is irrelevant to whether
validation fails). -/
inductive ValidationError where
  | missing (field : String)
  | invalidType (field : String)
  | belowMinimum (field : String)
  deriving DecidableEq, Repr

/-- An error response from the FastAPI endpoint: either a pydantic request
validation failure (HTTP 422) or an `HTTPException(code, detail)`. -/
inductive ApiError where
  | validationError (e : ValidationError)
  | httpError (code : Nat) (detail : String)
  deriving DecidableEq, Repr

/-- Coercion of a request scalar to an `int` field (pydantic): ints pass,
integral floats pass, integer-literal strings pass, everything else fails. -/
def coerceInt? : Value → Option Int
  | .int n => some n
  | .num q => if q.den = 1 then some q.num else none
  | .str s => parseInt? s
  | .null => none

/-- Coercion of a request scalar to a `float` field (pydantic). -/
def coerceRat? : Value → Option ℚ
  | .int n => some (n : ℚ)
  | .num q => some q
  | .str s => parseRat? s
  | .null => none

/-- Coercion of a request scalar to a `str` field (pydantic `str(v)`). -/
def coerceStr : Value → String
  | .str s => s
  | .int n => toString n
  | .num q => toString q
  | .null => "None"

/-- A required non-negative `int` field (`Field(..., ge=0)` plus the
`@validator` re-checking `v < 0`). -/
def reqInt (raw : RawMap) (field : String) : Except ValidationError Int :=
  match RawMap.get raw field with
  | none => .error (.missing field)
  | some v =>
    match coerceInt? v with
    | none => .error (.invalidType field)
    | some n => if n < 0 then .error (.belowMinimum field) else .ok n

/-- A required non-negative `float` field (`Field(..., ge=0)` plus the
`@validator` re-checking `v < 0`). -/
def reqRat (raw : RawMap) (field : String) : Except ValidationError ℚ :=
  match RawMap.get raw field with
  | none => .error (.missing field)
  | some v =>
    match coerceRat? v with
    | none => .error (.invalidType field)
    | some q => if q < 0 then .error (.belowMinimum field) else .ok q

/-- A required `str` field. -/
def reqStr (raw : RawMap) (field : String) : Except ValidationError String :=
  match RawMap.get raw field with
  | none => .error (.missing field)
  | some v => .ok (coerceStr v)

/-- An optional `str` field with a default (`Field("No", alias=...)`). -/
def optStr (raw : RawMap) (field : String) (dflt : String) : String :=
  match RawMap.get raw field with
  | none => dflt
  | some v => coerceStr v

/-- The `LeadScoringRequest` validated pydantic request model, fields in
source declaration order. -/
structure LeadScoringRequest where
  TotalVisits : Int
  Page_Views_Per_Visit : ℚ
  Total_Time_Spent_on_Website : Int
  Lead_Origin : String
  Lead_Source : String
  Last_Activity : String
  What_is_your_current_occupation : String
  Do_Not_Email : String
  Do_Not_Call : String
  Country : String
  Specialization : String
  Search : String
  Newspaper_Article : String
  X_Education_Forums : String
  Newspaper : String
  Digital_Advertisement : String
  Through_Recommendations : String
  Tags : String
  Lead_Quality : String
  City : String
  A_free_copy_of_Mastering_The_Interview : String
  Last_Notable_Activity : String
  deriving DecidableEq, Repr

/-- Pydantic validation of a request body against `LeadScoringRequest`
(population by alias): the seven required fields must be present (numeric
ones coercible and non-negative); the fifteen optional categorical fields
fall back to their declared defaults. -/
def LeadScoringRequest.parse_obj (raw : RawMap) :
    Except ValidationError LeadScoringRequest :=
  match reqInt raw "TotalVisits" with
  | .error e => .error e
  | .ok tv =>
    match reqRat raw "Page Views Per Visit" with
    | .error e => .error e
    | .ok pv =>
      match reqInt raw "Total Time Spent on Website" with
      | .error e => .error e
      | .ok ts =>
        match reqStr raw "Lead Origin" with
        | .error e => .error e
        | .ok lo =>
          match reqStr raw "Lead Source" with
          | .error e => .error e
          | .ok ls =>
            match reqStr raw "Last Activity" with
            | .error e => .error e
            | .ok la =>
              match reqStr raw "What is your current occupation" with
              | .error e => .error e
              | .ok oc =>
                .ok { TotalVisits := tv
                      Page_Views_Per_Visit := pv
                      Total_Time_Spent_on_Website := ts
                      Lead_Origin := lo
                      Lead_Source := ls
                      Last_Activity := la
                      What_is_your_current_occupation := oc
                      Do_Not_Email := optStr raw "Do Not Email" "No"
                      Do_Not_Call := optStr raw "Do Not Call" "No"
                      Country := optStr raw "Country" "India"
                      Specialization := optStr raw "Specialization" "Not Specified"
                      Search := optStr raw "Search" "No"
                      Newspaper_Article := optStr raw "Newspaper Article" "No"
                      X_Education_Forums := optStr raw "X Education Forums" "No"
                      Newspaper := optStr raw "Newspaper" "No"
                      Digital_Advertisement := optStr raw "Digital Advertisement" "No"
                      Through_Recommendations := optStr raw "Through Recommendations" "No"
                      Tags := optStr raw "Tags" "Not Specified"
                      Lead_Quality := optStr raw "Lead Quality" "Not Specified"
                      City := optStr raw "City" "Mumbai"
                      A_free_copy_of_Mastering_The_Interview :=
                        optStr raw "A free copy of Mastering The Interview" "No"
                      Last_Notable_Activity := optStr raw "Last Notable Activity" "Modified" }

/-- Python `request_data.dict(by_alias=False)`: field-name-keyed dict of the model,
in field declaration order. -/
def LeadScoringRequest.toDict (r : LeadScoringRequest) : List (String × Value) :=
  [("TotalVisits", .int r.TotalVisits),
   ("Page_Views_Per_Visit", .num r.Page_Views_Per_Visit),
   ("Total_Time_Spent_on_Website", .int r.Total_Time_Spent_on_Website),
   ("Lead_Origin", .str r.Lead_Origin),
   ("Lead_Source", .str r.Lead_Source),
   ("Last_Activity", .str r.Last_Activity),
   ("What_is_your_current_occupation", .str r.What_is_your_current_occupation),
   ("Do_Not_Email", .str r.Do_Not_Email),
   ("Do_Not_Call", .str r.Do_Not_Call),
   ("Country", .str r.Country),
   ("Specialization", .str r.Specialization),
   ("Search", .str r.Search),
   ("Newspaper_Article", .str r.Newspaper_Article),
   ("X_Education_Forums", .str r.X_Education_Forums),
   ("Newspaper", .str r.Newspaper),
   ("Digital_Advertisement", .str r.Digital_Advertisement),
   ("Through_Recommendations", .str r.Through_Recommendations),
   ("Tags", .str r.Tags),
   ("Lead_Quality", .str r.Lead_Quality),
   ("City", .str r.City),
   ("A_free_copy_of_Mastering_The_Interview", .str r.A_free_copy_of_Mastering_The_Interview),
   ("Last_Notable_Activity", .str r.Last_Notable_Activity)]

/-- The `field_mapping` of `prepare_features`: request field name → dataframe
column name, in source order. -/
def field_mapping : List (String × String) :=
  [("TotalVisits", "TotalVisits"),
   ("Page_Views_Per_Visit", "Page Views Per Visit"),
   ("Total_Time_Spent_on_Website", "Total Time Spent on Website"),
   ("Lead_Origin", "Lead Origin"),
   ("Lead_Source", "Lead Source"),
   ("Last_Activity", "Last Activity"),
   ("What_is_your_current_occupation", "What is your current occupation"),
   ("Do_Not_Email", "Do Not Email"),
   ("Do_Not_Call", "Do Not Call"),
   ("Country", "Country"),
   ("Specialization", "Specialization"),
   ("Search", "Search"),
   ("Newspaper_Article", "Newspaper Article"),
   ("X_Education_Forums", "X Education Forums"),
   ("Newspaper", "Newspaper"),
   ("Digital_Advertisement", "Digital Advertisement"),
   ("Through_Recommendations", "Through Recommendations"),
   ("Tags", "Tags"),
   ("Lead_Quality", "Lead Quality"),
   ("City", "City"),
   ("A_free_copy_of_Mastering_The_Interview", "A free copy of Mastering The Interview"),
   ("Last_Notable_Activity", "Last Notable Activity")]

/-- The `data_dict` build loop of `prepare_features`: for each
`(field_name, column_name)` pair, copy the request value when present. -/
def buildDataDict (request_dict : List (String × Value)) : List (String × Value) :=
  field_mapping.foldl
    (fun acc fc =>
      match RawMap.get request_dict fc.1 with
      | some v => acc ++ [(fc.2, v)]
      | none => acc)
    []

/-- The fill loop of `prepare_features`: any expected column still absent is
set to the string `'Not Specified'`. -/
def fillMissing (data_dict : List (String × Value)) : List (String × Value) :=
  EXPECTED_COLUMNS.foldl
    (fun acc col =>
      if (RawMap.get acc col).isSome then acc else acc ++ [(col, .str "Not Specified")])
    data_dict

/-- Pandas `df = df[EXPECTED_COLUMNS]`: reorder the single-row frame to schema
order; `none` embeds the pandas `KeyError` raised when a column is absent. -/
def reorderColumns (data_dict : List (String × Value)) :
    Option (List (String × Value)) :=
  EXPECTED_COLUMNS.mapM (fun col => (RawMap.get data_dict col).map (fun v => (col, v)))

/-- The `prepare_features` map: request model → single-row dataframe in
`EXPECTED_COLUMNS` order. -/
def prepare_features (r : LeadScoringRequest) : Option (List (String × Value)) :=
  reorderColumns (fillMissing (buildDataDict r.toDict))

/-- The row `prepare_features` actually produces: every schema column, in
schema order, populated from the validated request model. -/
def featureRow (r : LeadScoringRequest) : List (String × Value) :=
  [("Lead Origin", .str r.Lead_Origin),
   ("Lead Source", .str r.Lead_Source),
   ("Do Not Email", .str r.Do_Not_Email),
   ("Do Not Call", .str r.Do_Not_Call),
   ("TotalVisits", .int r.TotalVisits),
   ("Total Time Spent on Website", .int r.Total_Time_Spent_on_Website),
   ("Page Views Per Visit", .num r.Page_Views_Per_Visit),
   ("Last Activity", .str r.Last_Activity),
   ("Country", .str r.Country),
   ("Specialization", .str r.Specialization),
   ("What is your current occupation", .str r.What_is_your_current_occupation),
   ("Search", .str r.Search),
   ("Newspaper Article", .str r.Newspaper_Article),
   ("X Education Forums", .str r.X_Education_Forums),
   ("Newspaper", .str r.Newspaper),
   ("Digital Advertisement", .str r.Digital_Advertisement),
   ("Through Recommendations", .str r.Through_Recommendations),
   ("Tags", .str r.Tags),
   ("Lead Quality", .str r.Lead_Quality),
   ("City", .str r.City),
   ("A free copy of Mastering The Interview", .str r.A_free_copy_of_Mastering_The_Interview),
   ("Last Notable Activity", .str r.Last_Notable_Activity)]

/-- The intermediate `data_dict` that the build loop produces from a parsed
request: every column populated, in `field_mapping` order. -/
def dataDictRow (r : LeadScoringRequest) : List (String × Value) :=
  [("TotalVisits", .int r.TotalVisits),
   ("Page Views Per Visit", .num r.Page_Views_Per_Visit),
   ("Total Time Spent on Website", .int r.Total_Time_Spent_on_Website),
   ("Lead Origin", .str r.Lead_Origin),
   ("Lead Source", .str r.Lead_Source),
   ("Last Activity", .str r.Last_Activity),
   ("What is your current occupation", .str r.What_is_your_current_occupation),
   ("Do Not Email", .str r.Do_Not_Email),
   ("Do Not Call", .str r.Do_Not_Call),
   ("Country", .str r.Country),
   ("Specialization", .str r.Specialization),
   ("Search", .str r.Search),
   ("Newspaper Article", .str r.Newspaper_Article),
   ("X Education Forums", .str r.X_Education_Forums),
   ("Newspaper", .str r.Newspaper),
   ("Digital Advertisement", .str r.Digital_Advertisement),
   ("Through Recommendations", .str r.Through_Recommendations),
   ("Tags", .str r.Tags),
   ("Lead Quality", .str r.Lead_Quality),
   ("City", .str r.City),
   ("A free copy of Mastering The Interview", .str r.A_free_copy_of_Mastering_The_Interview),
   ("Last Notable Activity", .str r.Last_Notable_Activity)]

/-- The seven required attributes (aliases), per the pydantic model. -/
def required_fields : List String :=
  ["TotalVisits", "Page Views Per Visit", "Total Time Spent on Website",
   "Lead Origin", "Lead Source", "Last Activity", "What is your current occupation"]

/-- The three required numeric attributes (aliases). -/
def numeric_fields : List String :=
  ["TotalVisits", "Page Views Per Visit", "Total Time Spent on Website"]

/-- The value is a negative number (Python int or float). -/
def NegNumeric (v : Value) : Prop :=
  (∃ n : Int, v = .int n ∧ n < 0) ∨ (∃ q : ℚ, v = .num q ∧ q < 0)

/-- The fifteen optional categorical attributes with their declared defaults
(`DefaultsTable`), alias → default. -/
def optional_defaults : List (String × String) :=
  [("Do Not Email", "No"),
   ("Do Not Call", "No"),
   ("Country", "India"),
   ("Specialization", "Not Specified"),
   ("Search", "No"),
   ("Newspaper Article", "No"),
   ("X Education Forums", "No"),
   ("Newspaper", "No"),
   ("Digital Advertisement", "No"),
   ("Through Recommendations", "No"),
   ("Tags", "Not Specified"),
   ("Lead Quality", "Not Specified"),
   ("City", "Mumbai"),
   ("A free copy of Mastering The Interview", "No"),
   ("Last Notable Activity", "Modified")]

/-- Module-level service state of `main.py`: the two loaded-flags and the
predictions counter. -/
structure ServiceState where
  model_loaded : Bool
  preprocessor_loaded : Bool
  predictions_count : Nat
  deriving DecidableEq, Repr

/-- The `LeadScoringResponse` record (timestamp omitted, see module docstring). -/
structure LeadScoringResponse where
  prediction : Int
  lead_score : ℚ
  label : String
  model_version : String
  deriving DecidableEq, Repr

/-- The `HealthResponse` record (timestamp/version/uptime carry no logic; version is the
hardcoded string). -/
structure HealthResponse where
  status : String
  model_loaded : Bool
  preprocessor_loaded : Bool
  predictions_count : Nat
  deriving DecidableEq, Repr

/-- The `increment_predictions_count` background task bumping the counter. -/
def increment_predictions_count (predictions_count : Nat) : Nat :=
  predictions_count + 1

/-- The `/v2/predict` endpoint. Pydantic validates the body before the
handler runs; the handler rejects with 503 when an artifact is not loaded,
then runs prepare → transform → predict → predict_proba inside the
`try`, any failure of which becomes the single
`HTTPException(500, "Prediction failed: " ++ msg)`; on success the counter
background task is scheduled. Returns the outcome and the counter value
after the request (including the background increment). -/
def predict_lead_conversion (pre : Preprocessor) (clf : Classifier)
    (st : ServiceState) (raw : RawMap) :
    Except ApiError LeadScoringResponse × Nat :=
  match LeadScoringRequest.parse_obj raw with
  | .error e => (.error (.validationError e), st.predictions_count)
  | .ok req =>
    if st.model_loaded && st.preprocessor_loaded then
      match prepare_features req with
      | none =>
        (.error (.httpError 500 "Prediction failed: KeyError"), st.predictions_count)
      | some features_df =>
        match pre.transform features_df with
        | .error e =>
          (.error (.httpError 500 ("Prediction failed: " ++ e)), st.predictions_count)
        | .ok features_processed =>
          match clf.predict features_processed with
          | .error e =>
            (.error (.httpError 500 ("Prediction failed: " ++ e)), st.predictions_count)
          | .ok prediction =>
            match clf.predict_proba features_processed with
            | .error e =>
              (.error (.httpError 500 ("Prediction failed: " ++ e)), st.predictions_count)
            | .ok prediction_proba =>
              let lead_score : ℚ := prediction_proba.2 * 100
              let label := if prediction = 1 then "Will Convert" else "Will Not Convert"
              (.ok { prediction := prediction
                     lead_score := round2 lead_score
                     label := label
                     model_version := "2.0.0" },
               increment_predictions_count st.predictions_count)
    else
      (.error (.httpError 503 "Models not loaded. Please check server logs."),
       st.predictions_count)

/-- The first internal failure (if any) that the `try` body of
`predict_lead_conversion` hits for a parsed request: the pandas `KeyError`
of the column reorder, or the transform / predict / predict_proba error. -/
def innerFailure (pre : Preprocessor) (clf : Classifier) (req : LeadScoringRequest) :
    Option String :=
  match prepare_features req with
  | none => some "KeyError"
  | some features_df =>
    match pre.transform features_df with
    | .error e => some e
    | .ok x =>
      match clf.predict x with
      | .error e => some e
      | .ok _ =>
        match clf.predict_proba x with
        | .error e => some e
        | .ok _ => none

/-- The `/v2/health` endpoint. -/
def health_check (st : ServiceState) : HealthResponse :=
  { status := if st.model_loaded && st.preprocessor_loaded then "healthy" else "degraded"
    model_loaded := st.model_loaded
    preprocessor_loaded := st.preprocessor_loaded
    predictions_count := st.predictions_count }

/-- One for a successful outcome, zero for any error outcome. -/
def onSuccess : Except ApiError LeadScoringResponse → Nat
  | .ok _ => 1
  | .error _ => 0

/-- Process one request, keeping only the state change (the counter). -/
def step (pre : Preprocessor) (clf : Classifier) (st : ServiceState) (raw : RawMap) :
    ServiceState :=
  { st with predictions_count := (predict_lead_conversion pre clf st raw).2 }

/-- Process a sequence of requests against the process-wide state. -/
def runRequests (pre : Preprocessor) (clf : Classifier) (st : ServiceState)
    (reqs : List RawMap) : ServiceState :=
  reqs.foldl (step pre clf) st

end Api

namespace Flask

/-- The `numerical_cols` list of `safe_predict`. -/
def numerical_cols : List String :=
  ["TotalVisits", "Total Time Spent on Website", "Page Views Per Visit"]

/-- Pandas `to_numeric` with coercing errors on one cell: numbers pass through,
numeric strings parse, everything else (including a missing cell) becomes
`NaN` (`none`). -/
def toNumeric? : Value → Option ℚ
  | .int n => some (n : ℚ)
  | .num q => some q
  | .str s => parseRat? s
  | .null => none

/-- The `data_for_df` comprehension of `safe_predict`, one lookup per schema
column: the single-row frame, one cell per schema column, `None` (`null`)
for a missing attribute. -/
def build_df (input_data : RawMap) : List (String × Value) :=
  EXPECTED_COLUMNS.map (fun col => (col, (RawMap.get input_data col).getD Value.null))

/-- The numeric fix-up loop:
`input_df[col] = pd.to_numeric(input_df[col], errors='coerce').fillna(0)`
for the three numeric columns. -/
def numeric_fix (df : List (String × Value)) : List (String × Value) :=
  df.map (fun p =>
    if p.1 ∈ numerical_cols then
      (p.1, match toNumeric? p.2 with
            | some q => Value.num q
            | none => Value.num 0)
    else p)

/-- The dataframe `safe_predict` hands to the preprocessor. -/
def input_df (input_data : RawMap) : List (String × Value) :=
  numeric_fix (build_df input_data)

/-- The `safe_predict` function: returns `(prediction, lead_score, error)`; the `try` /
`except` body is embedded by totality, every failure being routed to the
error component. -/
def safe_predict (model : Option Classifier) (preprocessor : Option Preprocessor)
    (input_data : RawMap) : Option Int × Option ℚ × Option String :=
  match model, preprocessor with
  | some clf, some pre =>
    match pre.transform (input_df input_data) with
    | .error e => (none, none, some ("Prediction failed: " ++ e))
    | .ok processed_input =>
      match clf.predict processed_input with
      | .error e => (none, none, some ("Prediction failed: " ++ e))
      | .ok prediction =>
        match clf.predict_proba processed_input with
        | .error e => (none, none, some ("Prediction failed: " ++ e))
        | .ok proba => (some prediction, some (proba.2 * 100), none)
  | _, _ => (none, none, some "Model not loaded")

/-- One row of the in-memory `prediction_history`. -/
structure HistEntry where
  inputs : RawMap
  prediction : Option Int
  score : Option ℚ
  deriving DecidableEq, Repr

/-- The POST branch of the `index` route: run `safe_predict`, and on success
(`prediction_result is not None and error_message is None`) push the entry
at the front of the history, popping the oldest once the length exceeds 10.
Returns the rendered triple and the updated history. -/
def index_post (model : Option Classifier) (preprocessor : Option Preprocessor)
    (history : List HistEntry) (form_data : RawMap) :
    (Option Int × Option ℚ × Option String) × List HistEntry :=
  let r := safe_predict model preprocessor form_data
  if r.1 ≠ none ∧ r.2.2 = none then
    let h := { inputs := form_data, prediction := r.1, score := r.2.1 } :: history
    (r, if h.length > 10 then h.dropLast else h)
  else
    (r, history)

/-- The `/health` response of `app.py`. -/
structure HealthStatus where
  status : String
  model_loaded : Bool
  preprocessor_loaded : Bool
  predictions_count : Nat
  deriving DecidableEq, Repr

/-- The `/health` route of `app.py`: note the hardcoded `'healthy'` status. -/
def health_check (model : Option Classifier) (preprocessor : Option Preprocessor)
    (history : List HistEntry) : HealthStatus :=
  { status := "healthy"
    model_loaded := model.isSome
    preprocessor_loaded := preprocessor.isSome
    predictions_count := history.length }

end Flask

/-! ### Concrete fixtures (mock artifacts and requests) used by witnesses -/

/-- A mock classifier: always predicts class 1 with probabilities (0, 1). -/
def clfOk : Classifier :=
  { predict := fun _ => .ok 1
    predict_proba := fun _ => .ok (0, 1) }

/-- A mock classifier whose positive-class probability has more than two
decimal places as a percentage (0.123456). -/
def clfFrac : Classifier :=
  { predict := fun _ => .ok 1
    predict_proba := fun _ => .ok (1 - 123456/1000000, 123456/1000000) }

/-- A mock preprocessor that always succeeds. -/
def preOk : Preprocessor := { transform := fun _ => .ok [] }

/-- A mock preprocessor whose transform raises an internal error `"boom"`. -/
def preBoom : Preprocessor := { transform := fun _ => .error "boom" }

/-- The response the mock artifacts (`preOk`, `clfOk`) produce for a valid
request. -/
def respHappy : Api.LeadScoringResponse :=
  { prediction := 1
    lead_score := round2 ((1 : ℚ) * 100)
    label := "Will Convert"
    model_version := "2.0.0" }

/-- The documented minimal valid request body (spec §8 end-to-end example). -/
def rawHappy : RawMap :=
  [("TotalVisits", .int 5),
   ("Page Views Per Visit", .int 3),
   ("Total Time Spent on Website", .int 1850),
   ("Lead Origin", .str "API"),
   ("Lead Source", .str "Google"),
   ("Last Activity", .str "Email Opened"),
   ("What is your current occupation", .str "Working Professional")]

/-- The map `rawHappy` with its first two entries listed in the opposite iteration
order. -/
def rawHappyPerm : RawMap :=
  [("Page Views Per Visit", .int 3),
   ("TotalVisits", .int 5),
   ("Total Time Spent on Website", .int 1850),
   ("Lead Origin", .str "API"),
   ("Lead Source", .str "Google"),
   ("Last Activity", .str "Email Opened"),
   ("What is your current occupation", .str "Working Professional")]

/-- The parsed form of `rawHappy`: optional fields at their defaults. -/
def reqHappy : Api.LeadScoringRequest :=
  { TotalVisits := 5
    Page_Views_Per_Visit := ((3 : Int) : ℚ)
    Total_Time_Spent_on_Website := 1850
    Lead_Origin := "API"
    Lead_Source := "Google"
    Last_Activity := "Email Opened"
    What_is_your_current_occupation := "Working Professional"
    Do_Not_Email := "No"
    Do_Not_Call := "No"
    Country := "India"
    Specialization := "Not Specified"
    Search := "No"
    Newspaper_Article := "No"
    X_Education_Forums := "No"
    Newspaper := "No"
    Digital_Advertisement := "No"
    Through_Recommendations := "No"
    Tags := "Not Specified"
    Lead_Quality := "Not Specified"
    City := "Mumbai"
    A_free_copy_of_Mastering_The_Interview := "No"
    Last_Notable_Activity := "Modified" }

/-- The map `rawHappy` with the required `Lead Origin` attribute absent. -/
def rawNoOrigin : RawMap :=
  [("TotalVisits", .int 5),
   ("Page Views Per Visit", .int 3),
   ("Total Time Spent on Website", .int 1850),
   ("Lead Source", .str "Google"),
   ("Last Activity", .str "Email Opened"),
   ("What is your current occupation", .str "Working Professional")]

/-- A full HTML-form submission (all 22 fields, string-valued, as
`request.form.to_dict()` delivers them). -/
def rawFlaskHappy : RawMap :=
  [("TotalVisits", .str "5"),
   ("Page Views Per Visit", .str "3.2"),
   ("Total Time Spent on Website", .str "1850"),
   ("Lead Origin", .str "API"),
   ("Lead Source", .str "Google"),
   ("Last Activity", .str "Email Opened"),
   ("What is your current occupation", .str "Working Professional"),
   ("Do Not Email", .str "No"),
   ("Do Not Call", .str "No"),
   ("Country", .str "India"),
   ("Specialization", .str "Not Specified"),
   ("Search", .str "No"),
   ("Newspaper Article", .str "No"),
   ("X Education Forums", .str "No"),
   ("Newspaper", .str "No"),
   ("Digital Advertisement", .str "No"),
   ("Through Recommendations", .str "No"),
   ("Tags", .str "Not Specified"),
   ("Lead Quality", .str "Not Specified"),
   ("City", .str "Mumbai"),
   ("A free copy of Mastering The Interview", .str "No"),
   ("Last Notable Activity", .str "Modified")]

/-- The form `rawFlaskHappy` with an un-coercible value for `TotalVisits`. -/
def rawFlaskAbc : RawMap :=
  ("TotalVisits", Value.str "abc") :: rawFlaskHappy.tail

/-- One Flask request cycle against the mock artifacts and the happy form. -/
def flaskStep (h : List Flask.HistEntry) : List Flask.HistEntry :=
  (Flask.index_post (some clfOk) (some preOk) h rawFlaskHappy).2

/-- The prediction history after `n` successful form submissions. -/
def histN (n : Nat) : List Flask.HistEntry :=
  Nat.iterate flaskStep n []

/-! ### Auxiliary lemmas -/

set_option maxHeartbeats 4000000 in
/-- The function `prepare_features` always succeeds, producing exactly the schema-ordered
row `featureRow`: the build loop populates all 22 columns (so the
`'Not Specified'` fill never fires) and the reorder lists them in
`EXPECTED_COLUMNS` order. -/
theorem Api.prepare_features_eq (r : Api.LeadScoringRequest) :
    Api.prepare_features r = some (Api.featureRow r) := by
  have h1 : Api.buildDataDict r.toDict = Api.dataDictRow r := by
    simp [Api.buildDataDict, Api.field_mapping, Api.LeadScoringRequest.toDict, RawMap.get,
          Api.dataDictRow]
  have h2 : Api.fillMissing (Api.dataDictRow r) = Api.dataDictRow r := by
    simp [Api.fillMissing, EXPECTED_COLUMNS, RawMap.get, Api.dataDictRow]
  unfold Api.prepare_features
  rw [h1, h2]
  simp [Api.reorderColumns, EXPECTED_COLUMNS, RawMap.get, Api.featureRow, Api.dataDictRow,
        List.mapM, List.mapM.loop]

/-- On a duplicate-free attribute map, `dict.get` is invariant under
permutation of the entries. -/
theorem RawMap.get_eq_of_perm : ∀ {l l' : RawMap}, l.Perm l' →
    (l.map Prod.fst).Nodup → ∀ k, RawMap.get l k = RawMap.get l' k := by
  intro l l' h
  induction h with
  | nil => intro _ _; rfl
  | cons x _ ih =>
    obtain ⟨a, b⟩ := x
    intro hnd k
    simp only [List.map_cons, List.nodup_cons] at hnd
    simp only [RawMap.get]
    split
    · rfl
    · exact ih hnd.2 k
  | swap x y l =>
    obtain ⟨a, b⟩ := x
    obtain ⟨c, d⟩ := y
    intro hnd k
    simp only [List.map_cons, List.nodup_cons, List.mem_cons] at hnd
    have hca : c ≠ a := fun hc => hnd.1 (Or.inl hc)
    simp only [RawMap.get]
    split_ifs with h1 h2 h2 <;> first
      | rfl
      | exact absurd (h1.trans h2.symm) hca
  | trans h₁ _ ih₁ ih₂ =>
    intro hnd k
    have hnd₂ := (List.Perm.nodup_iff (h₁.map Prod.fst)).mp hnd
    exact (ih₁ hnd k).trans (ih₂ hnd₂ k)

/-- Pydantic validation depends on the attribute map only through lookups. -/
theorem Api.parse_obj_congr (raw raw' : RawMap)
    (h : ∀ k, RawMap.get raw k = RawMap.get raw' k) :
    Api.LeadScoringRequest.parse_obj raw = Api.LeadScoringRequest.parse_obj raw' := by
  unfold Api.LeadScoringRequest.parse_obj Api.reqInt Api.reqRat Api.reqStr Api.optStr
  simp only [h]

/-- Inversion of a successful validation: every required-field check passed
and produced the corresponding model field, and every optional field is the
declared lookup-with-default. -/
theorem Api.parse_ok_elim (raw : RawMap) (req : Api.LeadScoringRequest)
    (hok : Api.LeadScoringRequest.parse_obj raw = .ok req) :
    Api.reqInt raw "TotalVisits" = .ok req.TotalVisits
  ∧ Api.reqRat raw "Page Views Per Visit" = .ok req.Page_Views_Per_Visit
  ∧ Api.reqInt raw "Total Time Spent on Website" = .ok req.Total_Time_Spent_on_Website
  ∧ Api.reqStr raw "Lead Origin" = .ok req.Lead_Origin
  ∧ Api.reqStr raw "Lead Source" = .ok req.Lead_Source
  ∧ Api.reqStr raw "Last Activity" = .ok req.Last_Activity
  ∧ Api.reqStr raw "What is your current occupation"
      = .ok req.What_is_your_current_occupation
  ∧ req.Do_Not_Email = Api.optStr raw "Do Not Email" "No"
  ∧ req.Do_Not_Call = Api.optStr raw "Do Not Call" "No"
  ∧ req.Country = Api.optStr raw "Country" "India"
  ∧ req.Specialization = Api.optStr raw "Specialization" "Not Specified"
  ∧ req.Search = Api.optStr raw "Search" "No"
  ∧ req.Newspaper_Article = Api.optStr raw "Newspaper Article" "No"
  ∧ req.X_Education_Forums = Api.optStr raw "X Education Forums" "No"
  ∧ req.Newspaper = Api.optStr raw "Newspaper" "No"
  ∧ req.Digital_Advertisement = Api.optStr raw "Digital Advertisement" "No"
  ∧ req.Through_Recommendations = Api.optStr raw "Through Recommendations" "No"
  ∧ req.Tags = Api.optStr raw "Tags" "Not Specified"
  ∧ req.Lead_Quality = Api.optStr raw "Lead Quality" "Not Specified"
  ∧ req.City = Api.optStr raw "City" "Mumbai"
  ∧ req.A_free_copy_of_Mastering_The_Interview
      = Api.optStr raw "A free copy of Mastering The Interview" "No"
  ∧ req.Last_Notable_Activity = Api.optStr raw "Last Notable Activity" "Modified" := by
  unfold Api.LeadScoringRequest.parse_obj at hok
  cases h1 : Api.reqInt raw "TotalVisits" with
  | error e => simp [h1] at hok
  | ok tv =>
  rw [h1] at hok
  cases h2 : Api.reqRat raw "Page Views Per Visit" with
  | error e => simp [h2] at hok
  | ok pv =>
  rw [h2] at hok
  cases h3 : Api.reqInt raw "Total Time Spent on Website" with
  | error e => simp [h3] at hok
  | ok ts =>
  rw [h3] at hok
  cases h4 : Api.reqStr raw "Lead Origin" with
  | error e => simp [h4] at hok
  | ok lo =>
  rw [h4] at hok
  cases h5 : Api.reqStr raw "Lead Source" with
  | error e => simp [h5] at hok
  | ok ls =>
  rw [h5] at hok
  cases h6 : Api.reqStr raw "Last Activity" with
  | error e => simp [h6] at hok
  | ok la =>
  rw [h6] at hok
  cases h7 : Api.reqStr raw "What is your current occupation" with
  | error e => simp [h7] at hok
  | ok oc =>
  rw [h7] at hok
  simp only [Except.ok.injEq] at hok
  subst hok
  exact ⟨rfl, rfl, rfl, rfl, rfl, rfl, rfl, rfl, rfl, rfl, rfl, rfl, rfl, rfl,
         rfl, rfl, rfl, rfl, rfl, rfl, rfl, rfl⟩

/-- The numeric fix-up rewrites cell values only; column names and order are
untouched. -/
theorem Flask.numeric_fix_keys (df : List (String × Value)) :
    (Flask.numeric_fix df).map Prod.fst = df.map Prod.fst := by
  induction df with
  | nil => rfl
  | cons p t ih =>
    simp only [Flask.numeric_fix, List.map_cons] at ih ⊢
    rw [ih]
    congr 1
    split <;> rfl

/-- The Flask dataframe build emits one cell per schema column, in schema
order, for any input map. -/
theorem Flask.build_df_keys (input : RawMap) :
    (Flask.build_df input).map Prod.fst = EXPECTED_COLUMNS := by
  have h : ∀ cols : List String,
      (cols.map (fun col => (col, (RawMap.get input col).getD Value.null))).map Prod.fst
        = cols := by
    intro cols
    induction cols with
    | nil => rfl
    | cons c t ih => simp only [List.map_cons, ih]
  exact h EXPECTED_COLUMNS

/-- The dataframe `safe_predict` hands to the preprocessor always has column
order `EXPECTED_COLUMNS`. -/
theorem Flask.input_df_keys (input : RawMap) :
    (Flask.input_df input).map Prod.fst = EXPECTED_COLUMNS := by
  unfold Flask.input_df
  rw [Flask.numeric_fix_keys, Flask.build_df_keys]

/-- The rounding `round2` maps `[0, 100]` into `[0, 100]`. -/
theorem round2_bounds (q : ℚ) (h0 : 0 ≤ q) (h1 : q ≤ 100) :
    0 ≤ round2 q ∧ round2 q ≤ 100 := by
  unfold round2
  have hlo : (0 : ℤ) ≤ round (q * 100) := by
    rw [round_eq]
    exact Int.floor_nonneg.mpr (by linarith)
  have hhi : round (q * 100) ≤ 10000 := by
    rw [round_eq]
    calc ⌊q * 100 + 1 / 2⌋ ≤ ⌊(10000 : ℚ) + 1 / 2⌋ := Int.floor_mono (by linarith)
      _ = 10000 := by norm_num
  constructor
  · have : (0 : ℚ) ≤ ((round (q * 100) : ℤ) : ℚ) := by exact_mod_cast hlo
    positivity
  · have : ((round (q * 100) : ℤ) : ℚ) ≤ 10000 := by exact_mod_cast hhi
    rw [div_le_iff₀ (by norm_num : (0 : ℚ) < 100)]
    linarith

/-- The counter after one request is the counter before plus one exactly on
a successful outcome (and unchanged on every error outcome). -/
theorem Api.count_after (pre : Preprocessor) (clf : Classifier) (st : Api.ServiceState)
    (raw : RawMap) :
    (Api.predict_lead_conversion pre clf st raw).2
      = st.predictions_count
        + Api.onSuccess (Api.predict_lead_conversion pre clf st raw).1 := by
  unfold Api.predict_lead_conversion
  split
  · simp [Api.onSuccess]
  · split
    · split
      · simp [Api.onSuccess]
      · split
        · simp [Api.onSuccess]
        · split
          · simp [Api.onSuccess]
          · split
            · simp [Api.onSuccess]
            · simp [Api.onSuccess, Api.increment_predictions_count]
    · simp [Api.onSuccess]

/-- The request outcome depends on the service state only through the two
loaded-flags, never through the counter. -/
theorem Api.result_state_independent (pre : Preprocessor) (clf : Classifier)
    (st st' : Api.ServiceState) (raw : RawMap)
    (hm : st.model_loaded = st'.model_loaded)
    (hp : st.preprocessor_loaded = st'.preprocessor_loaded) :
    (Api.predict_lead_conversion pre clf st raw).1
      = (Api.predict_lead_conversion pre clf st' raw).1 := by
  unfold Api.predict_lead_conversion
  rw [hm, hp]
  split
  · rfl
  · split
    · split
      · rfl
      · split
        · rfl
        · split
          · rfl
          · split <;> rfl
    · rfl

/-- Over a request sequence, the final counter is the initial counter plus
the number of successful outcomes. -/
theorem Api.run_requests_count (pre : Preprocessor) (clf : Classifier) :
    ∀ (reqs : List RawMap) (st : Api.ServiceState),
      (Api.runRequests pre clf st reqs).predictions_count
        = st.predictions_count
          + (reqs.map
              (fun r => Api.onSuccess (Api.predict_lead_conversion pre clf st r).1)).sum := by
  intro reqs
  induction reqs with
  | nil => intro st; simp [Api.runRequests]
  | cons r t ih =>
    intro st
    have hmap : ∀ r' : RawMap,
        Api.onSuccess (Api.predict_lead_conversion pre clf (Api.step pre clf st r) r').1
          = Api.onSuccess (Api.predict_lead_conversion pre clf st r').1 := by
      intro r'
      rw [Api.result_state_independent pre clf (Api.step pre clf st r) st r' rfl rfl]
    have hrun : Api.runRequests pre clf st (r :: t)
        = Api.runRequests pre clf (Api.step pre clf st r) t := rfl
    rw [hrun, ih (Api.step pre clf st r)]
    have hstep : (Api.step pre clf st r).predictions_count
        = st.predictions_count
          + Api.onSuccess (Api.predict_lead_conversion pre clf st r).1 :=
      Api.count_after pre clf st r
    rw [hstep]
    simp only [hmap, List.map_cons, List.sum_cons]
    omega

/-! ### Claim theorems -/

/-- C2: whenever one of the seven required attributes is absent, or one of
the three required numeric attributes carries a negative number, validation
fails: the endpoint returns a `ValidationError` outcome with the counter
unchanged, and the outcome is the same for every runtime (so no transform
or predict call can have been made). -/
theorem validation_rejects_before_runtime (pre : Preprocessor) (clf : Classifier)
    (st : Api.ServiceState) (raw : RawMap)
    (h : (∃ a ∈ Api.required_fields, RawMap.get raw a = none)
       ∨ (∃ a ∈ Api.numeric_fields, ∃ v, RawMap.get raw a = some v ∧ Api.NegNumeric v)) :
    (∃ e, Api.predict_lead_conversion pre clf st raw
        = (.error (.validationError e), st.predictions_count))
  ∧ ∀ (pre' : Preprocessor) (clf' : Classifier),
      Api.predict_lead_conversion pre' clf' st raw
        = Api.predict_lead_conversion pre clf st raw := by
  have hErr : ∃ e, Api.LeadScoringRequest.parse_obj raw = .error e := by
    cases hp : Api.LeadScoringRequest.parse_obj raw with
    | error e => exact ⟨e, rfl⟩
    | ok req =>
      exfalso
      obtain ⟨c1, c2, c3, c4, c5, c6, c7, -⟩ := Api.parse_ok_elim raw req hp
      rcases h with ⟨a, ha, hnone⟩ | ⟨a, ha, v, hv, hneg⟩
      · simp only [Api.required_fields, List.mem_cons, List.not_mem_nil, or_false] at ha
        rcases ha with rfl | rfl | rfl | rfl | rfl | rfl | rfl
        · simp [Api.reqInt, hnone] at c1
        · simp [Api.reqRat, hnone] at c2
        · simp [Api.reqInt, hnone] at c3
        · simp [Api.reqStr, hnone] at c4
        · simp [Api.reqStr, hnone] at c5
        · simp [Api.reqStr, hnone] at c6
        · simp [Api.reqStr, hnone] at c7
      · simp only [Api.numeric_fields, List.mem_cons, List.not_mem_nil, or_false] at ha
        rcases ha with rfl | rfl | rfl
        · rcases hneg with ⟨n, rfl, hn⟩ | ⟨q, rfl, hq⟩
          · simp [Api.reqInt, hv, Api.coerceInt?, hn] at c1
          · have hqnum : q.num < 0 := Rat.num_neg.mpr hq
            by_cases hd : q.den = 1
            · simp [Api.reqInt, hv, Api.coerceInt?, hd, hqnum] at c1
            · simp [Api.reqInt, hv, Api.coerceInt?, hd] at c1
        · rcases hneg with ⟨n, rfl, hn⟩ | ⟨q, rfl, hq⟩
          · have hn' : ((n : ℚ)) < 0 := by exact_mod_cast hn
            simp [Api.reqRat, hv, Api.coerceRat?, hn'] at c2
          · simp [Api.reqRat, hv, Api.coerceRat?, hq] at c2
        · rcases hneg with ⟨n, rfl, hn⟩ | ⟨q, rfl, hq⟩
          · simp [Api.reqInt, hv, Api.coerceInt?, hn] at c3
          · have hqnum : q.num < 0 := Rat.num_neg.mpr hq
            by_cases hd : q.den = 1
            · simp [Api.reqInt, hv, Api.coerceInt?, hd, hqnum] at c3
            · simp [Api.reqInt, hv, Api.coerceInt?, hd] at c3
  obtain ⟨e, hp⟩ := hErr
  constructor
  · exact ⟨e, by simp [Api.predict_lead_conversion, hp]⟩
  · intro pre' clf'
    simp [Api.predict_lead_conversion, hp]

/-- C2 witness: a request missing the required `Lead Origin` attribute is
rejected with a validation outcome, identically for every runtime. -/
theorem validation_rejects_before_runtime_witness :
    (∃ a ∈ Api.required_fields, RawMap.get rawNoOrigin a = none)
  ∧ (∃ e, Api.predict_lead_conversion preOk clfOk ⟨true, true, 0⟩ rawNoOrigin
        = (.error (.validationError e), 0))
  ∧ ∀ (pre' : Preprocessor) (clf' : Classifier),
      Api.predict_lead_conversion pre' clf' ⟨true, true, 0⟩ rawNoOrigin
        = Api.predict_lead_conversion preOk clfOk ⟨true, true, 0⟩ rawNoOrigin := by
  have h : ∃ a ∈ Api.required_fields, RawMap.get rawNoOrigin a = none :=
    ⟨"Lead Origin", by decide, rfl⟩
  have hc := validation_rejects_before_runtime preOk clfOk ⟨true, true, 0⟩ rawNoOrigin (.inl h)
  exact ⟨h, hc.1, hc.2⟩

/-- C4 counterexample: a successful Flask prediction returns
`lead_score = p * 100` un-rounded — with positive-class probability
`0.123456` the returned score `12.3456` differs from its 2-decimal rounding
`12.35`, so "lead_score = probability * 100 rounded to 2 decimal places"
fails on the Flask variant. -/
theorem flask_lead_score_unrounded :
    Flask.safe_predict (some clfFrac) (some preOk) rawFlaskHappy
      = (some 1, some ((123456 / 1000000 : ℚ) * 100), none)
  ∧ (123456 / 1000000 : ℚ) * 100 ≠ round2 ((123456 / 1000000 : ℚ) * 100) := by
  refine ⟨rfl, ?_⟩
  norm_num [round2, round_eq]

/-- C4 (amended): in the FastAPI service (the variant that returns a
`LeadScoringResponse`), every successful prediction satisfies
`lead_score = round2 (p * 100)` for the runtime's positive-class
probability `p`, `lead_score ∈ [0, 100]` whenever the runtime's
probabilities lie in `[0, 1]`, and `label = "Will Convert" ↔ prediction = 1`;
the Flask variant returns the probability times 100 without rounding. -/
theorem api_score_label_contract (pre : Preprocessor) (clf : Classifier)
    (st : Api.ServiceState) (raw : RawMap) (resp : Api.LeadScoringResponse) (n : Nat)
    (hproba : ∀ x p, clf.predict_proba x = .ok p → 0 ≤ p.2 ∧ p.2 ≤ 1)
    (hok : Api.predict_lead_conversion pre clf st raw = (.ok resp, n)) :
    (∃ x p, clf.predict_proba x = .ok p ∧ resp.lead_score = round2 (p.2 * 100))
  ∧ 0 ≤ resp.lead_score ∧ resp.lead_score ≤ 100
  ∧ (resp.label = "Will Convert" ↔ resp.prediction = 1)
  ∧ n = st.predictions_count + 1 := by
  unfold Api.predict_lead_conversion at hok
  split at hok
  · simp at hok
  · split at hok
    case isTrue hl =>
      split at hok
      case h_1 hprep =>
        rw [Api.prepare_features_eq] at hprep
        simp at hprep
      case h_2 df hprep =>
        rw [Api.prepare_features_eq] at hprep
        injection hprep with hdf
        subst hdf
        split at hok
        case h_1 e ht => simp at hok
        case h_2 x ht =>
          split at hok
          case h_1 e hpred => simp at hok
          case h_2 pd hpred =>
            split at hok
            case h_1 e hprob => simp at hok
            case h_2 pb hprob =>
              simp only [Api.increment_predictions_count, Prod.mk.injEq,
                         Except.ok.injEq] at hok
              obtain ⟨hresp, hn⟩ := hok
              subst hresp
              have hb := hproba x pb hprob
              have hscore := round2_bounds (pb.2 * 100) (by linarith [hb.1])
                (by linarith [hb.2])
              refine ⟨⟨x, pb, hprob, rfl⟩, hscore.1, hscore.2, ?_, hn.symm⟩
              by_cases hpd : pd = 1
              · subst hpd; simp
              · simp [hpd]
    case isFalse hl =>
      simp at hok

/-- C4 witness: the mock runtime with probabilities `(0, 1)` on the spec
example request yields a response satisfying the amended contract. -/
theorem api_score_label_contract_witness :
    (∀ x p, clfOk.predict_proba x = .ok p → 0 ≤ p.2 ∧ p.2 ≤ 1)
  ∧ Api.predict_lead_conversion preOk clfOk ⟨true, true, 0⟩ rawHappy = (.ok respHappy, 1)
  ∧ (∃ x p, clfOk.predict_proba x = .ok p ∧ respHappy.lead_score = round2 (p.2 * 100))
  ∧ 0 ≤ respHappy.lead_score ∧ respHappy.lead_score ≤ 100
  ∧ (respHappy.label = "Will Convert" ↔ respHappy.prediction = 1) := by
  have hproba : ∀ x p, clfOk.predict_proba x = .ok p → 0 ≤ p.2 ∧ p.2 ≤ 1 := by
    intro x p hp
    simp only [clfOk, Except.ok.injEq] at hp
    subst hp
    exact ⟨by norm_num, by norm_num⟩
  have hok : Api.predict_lead_conversion preOk clfOk ⟨true, true, 0⟩ rawHappy
      = (.ok respHappy, 1) := rfl
  have h := api_score_label_contract preOk clfOk ⟨true, true, 0⟩ rawHappy respHappy 1 hproba hok
  exact ⟨hproba, hok, h.1, h.2.1, h.2.2.1, h.2.2.2.1⟩

/-- C1: for every valid request — over any duplicate-free iteration order of
the input attribute map — the feature record handed to the preprocessing
transform contains exactly the 22 `EXPECTED_COLUMNS` features, with its
fields in exactly `EXPECTED_COLUMNS` order; likewise the Flask dataframe
build is in `EXPECTED_COLUMNS` order for every input map. -/
theorem feature_record_schema_ordered (raw raw' : RawMap) (req : Api.LeadScoringRequest)
    (hperm : raw.Perm raw') (hnd : (raw.map Prod.fst).Nodup)
    (hok : Api.LeadScoringRequest.parse_obj raw = .ok req) :
    Api.LeadScoringRequest.parse_obj raw' = .ok req
  ∧ Api.prepare_features req = some (Api.featureRow req)
  ∧ (Api.featureRow req).map Prod.fst = EXPECTED_COLUMNS
  ∧ (Api.featureRow req).length = 22
  ∧ ∀ input : RawMap, (Flask.input_df input).map Prod.fst = EXPECTED_COLUMNS := by
  refine ⟨?_, Api.prepare_features_eq req, rfl, rfl, Flask.input_df_keys⟩
  rw [← Api.parse_obj_congr raw raw' (RawMap.get_eq_of_perm hperm hnd)]
  exact hok

/-- C1 witness: the spec §8 example request, under two iteration orders. -/
theorem feature_record_schema_ordered_witness :
    rawHappy.Perm rawHappyPerm
  ∧ (rawHappy.map Prod.fst).Nodup
  ∧ Api.LeadScoringRequest.parse_obj rawHappy = .ok reqHappy
  ∧ Api.LeadScoringRequest.parse_obj rawHappyPerm = .ok reqHappy
  ∧ Api.prepare_features reqHappy = some (Api.featureRow reqHappy)
  ∧ (Api.featureRow reqHappy).map Prod.fst = EXPECTED_COLUMNS
  ∧ (Api.featureRow reqHappy).length = 22 := by
  have hperm : rawHappy.Perm rawHappyPerm := by
    unfold rawHappy rawHappyPerm
    exact List.Perm.swap _ _ _
  have hnd : (rawHappy.map Prod.fst).Nodup := by decide
  have hok : Api.LeadScoringRequest.parse_obj rawHappy = .ok reqHappy := rfl
  obtain ⟨a, b, c, d, _⟩ :=
    feature_record_schema_ordered rawHappy rawHappyPerm reqHappy hperm hnd hok
  exact ⟨hperm, hnd, hok, a, b, c, d⟩

/-- C3: the variants are not equivalent on numeric coercion: on the same
attribute map carrying the un-coercible `TotalVisits = "abc"`, the strict
(FastAPI) variant rejects with a validation error, while the Flask variant
coerces the cell to 0 and proceeds to produce a prediction. -/
theorem variants_diverge_on_numeric_coercion :
    Api.LeadScoringRequest.parse_obj rawFlaskAbc = .error (.invalidType "TotalVisits")
  ∧ RawMap.get (Flask.input_df rawFlaskAbc) "TotalVisits" = some (.num 0)
  ∧ ∃ q, Flask.safe_predict (some clfOk) (some preOk) rawFlaskAbc
      = (some 1, some q, none) :=
  ⟨rfl, rfl, ⟨_, rfl⟩⟩

/-- C5: the FastAPI health endpoint reports "healthy" exactly when both
artifacts are loaded (else "degraded"), but the Flask variant reports
"healthy" even in the failing state "classifier loaded, preprocessor
missing" — the code contradicts the claim there. -/
theorem health_status_strict_and_divergence :
    (∀ (m p : Bool) (n : Nat),
      (Api.health_check ⟨m, p, n⟩).status = "healthy" ↔ (m && p) = true)
  ∧ (Api.health_check ⟨true, false, 0⟩).status = "degraded"
  ∧ (Flask.health_check (some clfOk) none []).status = "healthy"
  ∧ (Flask.health_check (some clfOk) none []).model_loaded = true
  ∧ (Flask.health_check (some clfOk) none []).preprocessor_loaded = false := by
  refine ⟨?_, rfl, rfl, rfl, rfl⟩
  intro m p n
  cases m <;> cases p <;> simp [Api.health_check]

/-- C6 counterexample (the Flask variant, whose health endpoint the claim
cites as the counter's reporting surface): its `predictions_count` is the
length of the bounded history, so with ten successes recorded, an eleventh
successful inference leaves it at 10 — the increment is lost. -/
theorem flask_count_stops_at_ten :
    (Flask.safe_predict (some clfOk) (some preOk) rawFlaskHappy).1 = some 1
  ∧ (Flask.health_check (some clfOk) (some preOk) (histN 10)).predictions_count = 10
  ∧ (Flask.health_check (some clfOk) (some preOk) (histN 11)).predictions_count = 10 := by
  refine ⟨rfl, ?_, ?_⟩ <;> decide

/-- C6 (amended): in the FastAPI service the counter is incremented exactly
once per successful inference and on no error outcome — after any request
it equals its prior value plus one exactly on success — and over any
request sequence it equals its initial value plus the number of successes,
so it never decreases; the Flask variant instead reports the length of the
bounded history, which stops increasing at 10. -/
theorem api_counter_exactly_once_per_success (pre : Preprocessor) (clf : Classifier)
    (st : Api.ServiceState) (raw : RawMap) (reqs : List RawMap) :
    (Api.predict_lead_conversion pre clf st raw).2
      = st.predictions_count
        + Api.onSuccess (Api.predict_lead_conversion pre clf st raw).1
  ∧ (Api.runRequests pre clf st reqs).predictions_count
      = st.predictions_count
        + (reqs.map
            (fun r => Api.onSuccess (Api.predict_lead_conversion pre clf st r).1)).sum
  ∧ st.predictions_count ≤ (Api.runRequests pre clf st reqs).predictions_count := by
  refine ⟨Api.count_after pre clf st raw, Api.run_requests_count pre clf reqs st, ?_⟩
  rw [Api.run_requests_count pre clf reqs st]
  exact Nat.le_add_right _ _

/-- C7 counterexample: an internal transform error with message "boom"
yields the HTTP 500 response whose detail string embeds that exception
message — so "no exception message appears in the response body" is false
on the code. -/
theorem api_error_detail_embeds_exception_message :
    Api.predict_lead_conversion preBoom clfOk ⟨true, true, 0⟩ rawHappy
      = (.error (.httpError 500 ("Prediction failed: " ++ "boom")), 0) := rfl

/-- C7 (amended): any internal error during prepare/transform/predict
surfaces as the single `HTTPException(500)` response whose detail is
"Prediction failed: " followed by the exception's message, with the
counter unchanged and no (partial or otherwise) `LeadScoringResponse`
returned. -/
theorem api_internal_error_single_500 (pre : Preprocessor) (clf : Classifier)
    (st : Api.ServiceState) (raw : RawMap) (req : Api.LeadScoringRequest) (msg : String)
    (hok : Api.LeadScoringRequest.parse_obj raw = .ok req)
    (hm : st.model_loaded = true) (hp : st.preprocessor_loaded = true)
    (hfail : Api.innerFailure pre clf req = some msg) :
    Api.predict_lead_conversion pre clf st raw
      = (.error (.httpError 500 ("Prediction failed: " ++ msg)),
         st.predictions_count) := by
  have hl : (st.model_loaded && st.preprocessor_loaded) = true := by rw [hm, hp]; rfl
  unfold Api.innerFailure at hfail
  split at hfail
  case h_1 hprep =>
    rw [Api.prepare_features_eq] at hprep
    simp at hprep
  case h_2 df hprep =>
    rw [Api.prepare_features_eq] at hprep
    injection hprep with hdf
    subst hdf
    split at hfail
    case h_1 e ht =>
      injection hfail with hmsg
      subst hmsg
      simp [Api.predict_lead_conversion, hok, hl, Api.prepare_features_eq, ht]
    case h_2 x ht =>
      split at hfail
      case h_1 e hpred =>
        injection hfail with hmsg
        subst hmsg
        simp [Api.predict_lead_conversion, hok, hl, Api.prepare_features_eq, ht, hpred]
      case h_2 pd hpred =>
        split at hfail
        case h_1 e hprob =>
          injection hfail with hmsg
          subst hmsg
          simp [Api.predict_lead_conversion, hok, hl, Api.prepare_features_eq, ht,
                hpred, hprob]
        case h_2 pb hprob =>
          simp at hfail

/-- C7 witness: the `"boom"`-raising preprocessor on a loaded service with
counter 7 produces exactly the single 500 outcome and leaves the counter
at 7. -/
theorem api_internal_error_single_500_witness :
    Api.LeadScoringRequest.parse_obj rawHappy = .ok reqHappy
  ∧ Api.innerFailure preBoom clfOk reqHappy = some "boom"
  ∧ Api.predict_lead_conversion preBoom clfOk ⟨true, true, 7⟩ rawHappy
      = (.error (.httpError 500 ("Prediction failed: " ++ "boom")), 7) := by
  refine ⟨rfl, rfl, ?_⟩
  exact api_internal_error_single_500 preBoom clfOk ⟨true, true, 7⟩ rawHappy reqHappy
    "boom" rfl rfl rfl rfl

/-- C8: for every valid request, the feature record is fully populated in
schema order, and any omitted optional categorical attribute appears in it
with its documented default (e.g. omitted "City" resolves to "Mumbai"). -/
theorem api_omitted_optionals_defaulted (raw : RawMap) (req : Api.LeadScoringRequest)
    (hok : Api.LeadScoringRequest.parse_obj raw = .ok req) :
    Api.prepare_features req = some (Api.featureRow req)
  ∧ (Api.featureRow req).map Prod.fst = EXPECTED_COLUMNS
  ∧ ∀ p ∈ Api.optional_defaults, RawMap.get raw p.1 = none →
      RawMap.get (Api.featureRow req) p.1 = some (.str p.2) := by
  refine ⟨Api.prepare_features_eq req, rfl, ?_⟩
  obtain ⟨-, -, -, -, -, -, -, h8, h9, h10, h11, h12, h13, h14, h15, h16, h17, h18,
          h19, h20, h21, h22⟩ := Api.parse_ok_elim raw req hok
  intro p hp hnone
  simp only [Api.optional_defaults, List.mem_cons, List.not_mem_nil, or_false] at hp
  rcases hp with rfl | rfl | rfl | rfl | rfl | rfl | rfl | rfl | rfl | rfl | rfl | rfl |
    rfl | rfl | rfl
  · have hval : req.Do_Not_Email = "No" := by
      rw [h8]; unfold Api.optStr
      rw [show RawMap.get raw "Do Not Email" = none from hnone]
    exact (show RawMap.get (Api.featureRow req) ("Do Not Email", "No").1
        = some (.str req.Do_Not_Email) from rfl).trans (by rw [hval])
  · have hval : req.Do_Not_Call = "No" := by
      rw [h9]; unfold Api.optStr
      rw [show RawMap.get raw "Do Not Call" = none from hnone]
    exact (show RawMap.get (Api.featureRow req) ("Do Not Call", "No").1
        = some (.str req.Do_Not_Call) from rfl).trans (by rw [hval])
  · have hval : req.Country = "India" := by
      rw [h10]; unfold Api.optStr
      rw [show RawMap.get raw "Country" = none from hnone]
    exact (show RawMap.get (Api.featureRow req) ("Country", "India").1
        = some (.str req.Country) from rfl).trans (by rw [hval])
  · have hval : req.Specialization = "Not Specified" := by
      rw [h11]; unfold Api.optStr
      rw [show RawMap.get raw "Specialization" = none from hnone]
    exact (show RawMap.get (Api.featureRow req) ("Specialization", "Not Specified").1
        = some (.str req.Specialization) from rfl).trans (by rw [hval])
  · have hval : req.Search = "No" := by
      rw [h12]; unfold Api.optStr
      rw [show RawMap.get raw "Search" = none from hnone]
    exact (show RawMap.get (Api.featureRow req) ("Search", "No").1
        = some (.str req.Search) from rfl).trans (by rw [hval])
  · have hval : req.Newspaper_Article = "No" := by
      rw [h13]; unfold Api.optStr
      rw [show RawMap.get raw "Newspaper Article" = none from hnone]
    exact (show RawMap.get (Api.featureRow req) ("Newspaper Article", "No").1
        = some (.str req.Newspaper_Article) from rfl).trans (by rw [hval])
  · have hval : req.X_Education_Forums = "No" := by
      rw [h14]; unfold Api.optStr
      rw [show RawMap.get raw "X Education Forums" = none from hnone]
    exact (show RawMap.get (Api.featureRow req) ("X Education Forums", "No").1
        = some (.str req.X_Education_Forums) from rfl).trans (by rw [hval])
  · have hval : req.Newspaper = "No" := by
      rw [h15]; unfold Api.optStr
      rw [show RawMap.get raw "Newspaper" = none from hnone]
    exact (show RawMap.get (Api.featureRow req) ("Newspaper", "No").1
        = some (.str req.Newspaper) from rfl).trans (by rw [hval])
  · have hval : req.Digital_Advertisement = "No" := by
      rw [h16]; unfold Api.optStr
      rw [show RawMap.get raw "Digital Advertisement" = none from hnone]
    exact (show RawMap.get (Api.featureRow req) ("Digital Advertisement", "No").1
        = some (.str req.Digital_Advertisement) from rfl).trans (by rw [hval])
  · have hval : req.Through_Recommendations = "No" := by
      rw [h17]; unfold Api.optStr
      rw [show RawMap.get raw "Through Recommendations" = none from hnone]
    exact (show RawMap.get (Api.featureRow req) ("Through Recommendations", "No").1
        = some (.str req.Through_Recommendations) from rfl).trans (by rw [hval])
  · have hval : req.Tags = "Not Specified" := by
      rw [h18]; unfold Api.optStr
      rw [show RawMap.get raw "Tags" = none from hnone]
    exact (show RawMap.get (Api.featureRow req) ("Tags", "Not Specified").1
        = some (.str req.Tags) from rfl).trans (by rw [hval])
  · have hval : req.Lead_Quality = "Not Specified" := by
      rw [h19]; unfold Api.optStr
      rw [show RawMap.get raw "Lead Quality" = none from hnone]
    exact (show RawMap.get (Api.featureRow req) ("Lead Quality", "Not Specified").1
        = some (.str req.Lead_Quality) from rfl).trans (by rw [hval])
  · have hval : req.City = "Mumbai" := by
      rw [h20]; unfold Api.optStr
      rw [show RawMap.get raw "City" = none from hnone]
    exact (show RawMap.get (Api.featureRow req) ("City", "Mumbai").1
        = some (.str req.City) from rfl).trans (by rw [hval])
  · have hval : req.A_free_copy_of_Mastering_The_Interview = "No" := by
      rw [h21]; unfold Api.optStr
      rw [show RawMap.get raw "A free copy of Mastering The Interview" = none from hnone]
    exact (show RawMap.get (Api.featureRow req)
        ("A free copy of Mastering The Interview", "No").1
        = some (.str req.A_free_copy_of_Mastering_The_Interview) from rfl).trans
      (by rw [hval])
  · have hval : req.Last_Notable_Activity = "Modified" := by
      rw [h22]; unfold Api.optStr
      rw [show RawMap.get raw "Last Notable Activity" = none from hnone]
    exact (show RawMap.get (Api.featureRow req) ("Last Notable Activity", "Modified").1
        = some (.str req.Last_Notable_Activity) from rfl).trans (by rw [hval])

/-- C8 witness: the minimal request omits "City"; the feature record carries
the default "Mumbai". -/
theorem api_omitted_optionals_defaulted_witness :
    Api.LeadScoringRequest.parse_obj rawHappy = .ok reqHappy
  ∧ ("City", "Mumbai") ∈ Api.optional_defaults
  ∧ RawMap.get rawHappy "City" = none
  ∧ RawMap.get (Api.featureRow reqHappy) "City" = some (.str "Mumbai") := by
  have hok : Api.LeadScoringRequest.parse_obj rawHappy = .ok reqHappy := rfl
  have hmem : ("City", "Mumbai") ∈ Api.optional_defaults := by decide
  have hnone : RawMap.get rawHappy "City" = none := rfl
  have h := (api_omitted_optionals_defaulted rawHappy reqHappy hok).2.2
    ("City", "Mumbai") hmem hnone
  exact ⟨hok, hmem, hnone, h⟩

/-- C10: for every input mapping, `safe_predict` yields a
`(prediction, lead_score, error)` triple (the embedding of its `try` /
`except` is total, so no exception propagates) in which exactly one of
prediction and error is `None`; and `index_post` leaves the shared history
unchanged on every failed prediction — when it does change it, the change
is exactly the successful entry pushed at the front. -/
theorem flask_safe_predict_triple_history (model : Option Classifier)
    (preprocessor : Option Preprocessor) (hist : List Flask.HistEntry) (form : RawMap) :
    ((Flask.safe_predict model preprocessor form).1 = none
      ↔ (Flask.safe_predict model preprocessor form).2.2 ≠ none)
  ∧ ((Flask.index_post model preprocessor hist form).2 = hist
      ∨ ((Flask.safe_predict model preprocessor form).1 ≠ none
        ∧ (Flask.safe_predict model preprocessor form).2.2 = none
        ∧ (Flask.index_post model preprocessor hist form).2.head?
            = some { inputs := form
                     prediction := (Flask.safe_predict model preprocessor form).1
                     score := (Flask.safe_predict model preprocessor form).2.1 })) := by
  rcases model with _ | clf
  · constructor
    · simp [Flask.safe_predict]
    · left
      simp [Flask.index_post, Flask.safe_predict]
  rcases preprocessor with _ | pre
  · constructor
    · simp [Flask.safe_predict]
    · left
      simp [Flask.index_post, Flask.safe_predict]
  cases ht : pre.transform (Flask.input_df form) with
  | error e =>
    constructor
    · simp [Flask.safe_predict, ht]
    · left
      simp [Flask.index_post, Flask.safe_predict, ht]
  | ok x =>
  cases hpred : clf.predict x with
  | error e =>
    constructor
    · simp [Flask.safe_predict, ht, hpred]
    · left
      simp [Flask.index_post, Flask.safe_predict, ht, hpred]
  | ok pd =>
  cases hprob : clf.predict_proba x with
  | error e =>
    constructor
    · simp [Flask.safe_predict, ht, hpred, hprob]
    · left
      simp [Flask.index_post, Flask.safe_predict, ht, hpred, hprob]
  | ok pb =>
  have hsp : Flask.safe_predict (some clf) (some pre) form
      = (some pd, some (pb.2 * 100), none) := by
    simp [Flask.safe_predict, ht, hpred, hprob]
  constructor
  · simp [hsp]
  · right
    refine ⟨by simp [hsp], by simp [hsp], ?_⟩
    rw [hsp]
    show (Flask.index_post (some clf) (some pre) hist form).2.head? = _
    simp only [Flask.index_post, hsp]
    rw [if_pos (by simp)]
    cases hist with
    | nil => rfl
    | cons e0 t =>
      split
      · rfl
      · rfl
